import Mathlib

/-!
# Verification of `temci/tester/stats.py`

Shallow embedding of the statistical object model of the repository
(`src/temci/tester/stats.py`) and proofs about the frozen claims.

Observation values are modelled as rationals (the Python code uses floats;
the only genuinely irrational operation, `np.sqrt` inside `std_dev`, is
idealised as `Real.sqrt` on the reals).  Diagnostic-message values are
modelled as reals for the program-level instantiation; the message
machinery itself is value-agnostic, exactly as the dynamically typed
Python code is.
-/

namespace Temci

/-- The concrete message classes of `stats.py`
(`StdDeviationToHigh`, `NotEnoughObservations` and `EffectToSmall`, each as
`Warning` and as `Error`).  Python's `type(msg) == type(msg2)` is exact
class equality, modelled by decidable equality of this type. -/
inductive MessageKind where
  | stdDeviationToHighWarning
  | stdDeviationToHighError
  | notEnoughObservationsWarning
  | notEnoughObservationsError
  | effectToSmallWarning
  | effectToSmallError
deriving DecidableEq, Repr

/-- `isinstance(other, type(self))` for two concrete message classes: the
class hierarchy of `stats.py` makes each `...Error` a subclass of the
corresponding `...Warning`; no other subclass relation holds between the
six concrete classes. -/
def MessageKind.isSubclassOf : MessageKind → MessageKind → Bool
  | a, b =>
    a == b ||
    (a == .stdDeviationToHighError && b == .stdDeviationToHighWarning) ||
    (a == .notEnoughObservationsError && b == .notEnoughObservationsWarning) ||
    (a == .effectToSmallError && b == .effectToSmallWarning)

/-- Python's string comparison: code-point lexicographic comparison of
the character sequences, as a computable boolean. -/
def charListLe : List Char → List Char → Bool
  | [], _ => true
  | _ :: _, [] => false
  | a :: as, b :: bs =>
    if a < b then true
    else if b < a then false
    else charListLe as bs

theorem charListLe_iff_not_lex : ∀ x y : List Char,
    charListLe x y = true ↔ ¬ List.Lex (· < ·) y x
  | [], y => iff_of_true rfl (List.Lex.not_nil_right _ _)
  | _ :: _, [] => iff_of_false (by simp [charListLe]) (fun h => h List.Lex.nil)
  | a :: as, b :: bs => by
    simp only [charListLe]
    by_cases h1 : a < b
    · rw [if_pos h1]
      refine iff_of_true rfl ?_
      intro hlex
      cases hlex with
      | rel h => exact absurd h1 (asymm h)
      | cons h => exact absurd h1 (lt_irrefl _)
    · rw [if_neg h1]
      by_cases h2 : b < a
      · rw [if_pos h2]
        exact iff_of_false (by simp) (fun h => h (List.Lex.rel h2))
      · rw [if_neg h2]
        have hab : a = b := le_antisymm (not_lt.mp h2) (not_lt.mp h1)
        subst hab
        rw [List.Lex.cons_iff]
        exact charListLe_iff_not_lex as bs

/-- The comparator agrees with the linear order on `String` (both are
code-point lexicographic). -/
theorem stringLe_iff_le (a b : String) : charListLe a.data b.data = true ↔ a ≤ b := by
  rw [charListLe_iff_not_lex]
  show ¬ b.toList < a.toList ↔ a ≤ b
  rw [not_lt, ← String.le_iff_toList_le]

instance instIsTotalCharListLe : IsTotal String (fun a b => charListLe a.data b.data = true) :=
  ⟨fun a b => by
    rcases le_total a b with h | h
    · exact Or.inl ((stringLe_iff_le a b).mpr h)
    · exact Or.inr ((stringLe_iff_le b a).mpr h)⟩

instance instIsTransCharListLe : IsTrans String (fun a b => charListLe a.data b.data = true) :=
  ⟨fun a b c hab hbc =>
    (stringLe_iff_le a c).mpr
      (le_trans ((stringLe_iff_le a b).mp hab) ((stringLe_iff_le b c).mp hbc))⟩

/-- Python's `sorted` on a list of strings: stable ascending sort by the
code-point lexicographic order; any stable sort is extensionally the
same, insertion sort is used here. -/
def sortStrings (l : List String) : List String :=
  l.insertionSort (fun a b => charListLe a.data b.data = true)

theorem sorted_sortStrings (l : List String) : (sortStrings l).Sorted (· ≤ ·) :=
  (List.sorted_insertionSort _ l).imp (fun h => (stringLe_iff_le _ _).mp h)

theorem length_sortStrings (l : List String) : (sortStrings l).length = l.length :=
  List.length_insertionSort _ l

/-- `StatMessage` (stats.py line 45): a diagnostic message with a kind
(its Python class), a parent stat object, a property-name list and a
parallel value list.  Generic in the parent type `P` and the numeric value
type `V`, as the Python code is duck typed in both. -/
structure StatMessage (P V : Type) where
  kind : MessageKind
  parent : P
  properties : List String
  values : List V
deriving DecidableEq

/-- `StatMessage.__init__` (stats.py lines 56-65): typechecks that the
property list is non-empty and the value list has the same length
(a failing `typecheck` raises, modelled by `none`), then stores the
*sorted* property list and the value list *unchanged*. -/
def mkStatMessage (kind : MessageKind) (parent : P) (properties : List String)
    (values : List V) : Option (StatMessage P V) :=
  if properties.length > 0 ∧ values.length = properties.length then
    some ⟨kind, parent, sortStrings properties, values⟩
  else
    none

/-- `StatMessage.__add__` (stats.py lines 67-70): requires
`typecheck(other, T(type(self)))` (i.e. `other` is an instance of `self`'s
class) and asserts `self.parent.eq_except_property(other.parent)`
(`eqExcept` is the parent type's `eq_except_property` method); the result
is built by the constructor from `self`'s class and parent and the
concatenated property and value lists. -/
def StatMessage.add (eqExcept : P → P → Bool) (a b : StatMessage P V) :
    Option (StatMessage P V) :=
  if b.kind.isSubclassOf a.kind && eqExcept a.parent b.parent then
    mkStatMessage a.kind a.parent (a.properties ++ b.properties) (a.values ++ b.values)
  else
    none

/-- The merge performed inside `combine` (stats.py line 95, `msg + msg2`):
in that context both messages have the same class, so the constructor's
typechecks always pass and `__add__` reduces to this total function. -/
def StatMessage.mergeWith (a b : StatMessage P V) : StatMessage P V :=
  ⟨a.kind, a.parent, sortStrings (a.properties ++ b.properties), a.values ++ b.values⟩

/-- The merge condition of `combine` (stats.py line 87):
`msg.parent.eq_except_property(msg2.parent) and type(msg) == type(msg2)`. -/
def mergeable (eqExcept : P → P → Bool) (a b : StatMessage P V) : Bool :=
  a.kind == b.kind && eqExcept a.parent b.parent

/-- Scan the tail for the first partner mergeable with `a` (in either
orientation, as `itertools.product` in stats.py line 85 enumerates both
ordered pairs); on success return the merged message and the remaining
tail with the partner removed. -/
def extractMate (eqExcept : P → P → Bool) (a : StatMessage P V) :
    List (StatMessage P V) → Option (StatMessage P V × List (StatMessage P V))
  | [] => none
  | b :: rest =>
    if mergeable eqExcept a b then some (a.mergeWith b, rest)
    else if mergeable eqExcept b a then some (b.mergeWith a, rest)
    else
      match extractMate eqExcept a rest with
      | some (m, rest') => some (m, b :: rest')
      | none => none

/-- One iteration of the `while something_changed` loop of `combine`
(stats.py lines 82-95): find any mergeable pair, remove both members and
insert their merge; `none` when no mergeable pair exists (the loop's exit
condition).  The Python loop iterates a `set` in unspecified order; this
embedding determinises the search to the first pair in list order. -/
def combineStep (eqExcept : P → P → Bool) :
    List (StatMessage P V) → Option (List (StatMessage P V))
  | [] => none
  | a :: rest =>
    match extractMate eqExcept a rest with
    | some (m, rest') => some (m :: rest')
    | none => (combineStep eqExcept rest).map (a :: ·)

theorem extractMate_length (eqExcept : P → P → Bool) (a : StatMessage P V)
    (l : List (StatMessage P V)) (m : StatMessage P V)
    (rest : List (StatMessage P V))
    (h : extractMate eqExcept a l = some (m, rest)) :
    rest.length + 1 = l.length := by
  induction l generalizing m rest with
  | nil => simp [extractMate] at h
  | cons b bs ih =>
    simp only [extractMate] at h
    by_cases h1 : mergeable eqExcept a b = true
    · rw [if_pos h1] at h
      injection h with h'
      cases h'
      simp
    · rw [if_neg h1] at h
      by_cases h2 : mergeable eqExcept b a = true
      · rw [if_pos h2] at h
        injection h with h'
        cases h'
        simp
      · rw [if_neg h2] at h
        cases hrec : extractMate eqExcept a bs with
        | none => rw [hrec] at h; exact absurd h (by simp)
        | some p =>
          obtain ⟨m', rest'⟩ := p
          rw [hrec] at h
          simp only [Option.some.injEq, Prod.mk.injEq] at h
          obtain ⟨h3, h4⟩ := h
          subst h3
          subst h4
          have := ih m' rest' hrec
          simp [← this]

theorem combineStep_length (eqExcept : P → P → Bool)
    (l l' : List (StatMessage P V))
    (h : combineStep eqExcept l = some l') :
    l'.length + 1 = l.length := by
  induction l generalizing l' with
  | nil => simp [combineStep] at h
  | cons a rest ih =>
    simp only [combineStep] at h
    cases hm : extractMate eqExcept a rest with
    | some p =>
      obtain ⟨m, rest'⟩ := p
      rw [hm] at h
      simp only [Option.some.injEq] at h
      subst h
      have := extractMate_length eqExcept a rest m rest' hm
      simp [← this]
    | none =>
      rw [hm] at h
      cases hs : combineStep eqExcept rest with
      | none => rw [hs] at h; exact absurd h (by simp)
      | some l'' =>
        rw [hs] at h
        simp only [Option.map_some', Option.some.injEq] at h
        subst h
        have := ih l'' hs
        simp [← this]

/-- The `while something_changed` loop of `combine` (stats.py lines
82-95): iterate `combineStep` to its fixed point.  Terminates because
each merge strictly reduces the message count by one. -/
def combineLoop (eqExcept : P → P → Bool) (l : List (StatMessage P V)) :
    List (StatMessage P V) :=
  match h : combineStep eqExcept l with
  | some l' =>
    have : l'.length < l.length := by
      have := combineStep_length eqExcept l l' h
      omega
    combineLoop eqExcept l'
  | none => l
termination_by l.length

/-- `StatMessage.combine` (stats.py lines 72-96): drop the `None`
entries, then repeatedly merge mergeable pairs until none remains. -/
def StatMessage.combine (eqExcept : P → P → Bool)
    (messages : List (Option (StatMessage P V))) : List (StatMessage P V) :=
  combineLoop eqExcept (messages.filterMap id)

theorem combineLoop_of_none (eqExcept : P → P → Bool)
    (l : List (StatMessage P V)) (h : combineStep eqExcept l = none) :
    combineLoop eqExcept l = l := by
  rw [combineLoop]
  split
  · next l' heq => rw [h] at heq; cases heq
  · rfl

theorem combineLoop_of_some (eqExcept : P → P → Bool)
    (l l' : List (StatMessage P V)) (h : combineStep eqExcept l = some l') :
    combineLoop eqExcept l = combineLoop eqExcept l' := by
  rw [combineLoop]
  split
  · next l'' heq =>
      rw [h] at heq
      injection heq with heq'
      rw [heq']
  · next heq => rw [h] at heq; cases heq

/-- The result of the combine loop admits no further merge: the loop only
stops when `combineStep` finds no mergeable pair. -/
theorem combineStep_combineLoop (eqExcept : P → P → Bool)
    (l : List (StatMessage P V)) :
    combineStep eqExcept (combineLoop eqExcept l) = none := by
  cases h : combineStep eqExcept l with
  | none => rw [combineLoop_of_none eqExcept l h]; exact h
  | some l' =>
    rw [combineLoop_of_some eqExcept l l' h]
    have hlt : l'.length < l.length := by
      have := combineStep_length eqExcept l l' h
      omega
    exact combineStep_combineLoop eqExcept l'
termination_by l.length

theorem combineLoop_length_le (eqExcept : P → P → Bool)
    (l : List (StatMessage P V)) :
    (combineLoop eqExcept l).length ≤ l.length := by
  cases h : combineStep eqExcept l with
  | none => rw [combineLoop_of_none eqExcept l h]
  | some l' =>
    rw [combineLoop_of_some eqExcept l l' h]
    have hlt : l'.length < l.length := by
      have := combineStep_length eqExcept l l' h
      omega
    have := combineLoop_length_le eqExcept l'
    omega
termination_by l.length

theorem extractMate_eq_none_iff (eqExcept : P → P → Bool)
    (a : StatMessage P V) (l : List (StatMessage P V)) :
    extractMate eqExcept a l = none ↔
      ∀ b ∈ l, mergeable eqExcept a b = false ∧ mergeable eqExcept b a = false := by
  induction l with
  | nil => simp [extractMate]
  | cons b bs ih =>
    simp only [extractMate]
    by_cases h1 : mergeable eqExcept a b = true
    · simp [h1]
    · rw [if_neg h1]
      by_cases h2 : mergeable eqExcept b a = true
      · simp [h1, h2]
      · rw [if_neg h2]
        cases hrec : extractMate eqExcept a bs with
        | some p =>
          obtain ⟨m', rest'⟩ := p
          rw [hrec] at ih
          simp only [List.forall_mem_cons]
          constructor
          · intro h
            exact Option.noConfusion h
          · rintro ⟨-, hall⟩
            exact Option.noConfusion (ih.mpr hall)
        | none =>
          rw [hrec] at ih
          simp only [true_iff] at ih
          simp only [List.forall_mem_cons]
          refine iff_of_true (by simp) ⟨⟨?_, ?_⟩, ih⟩
          · simpa using h1
          · simpa using h2

theorem combineStep_eq_none_iff (eqExcept : P → P → Bool)
    (l : List (StatMessage P V)) :
    combineStep eqExcept l = none ↔
      List.Pairwise
        (fun a b => mergeable eqExcept a b = false ∧ mergeable eqExcept b a = false) l := by
  induction l with
  | nil => simp [combineStep]
  | cons a rest ih =>
    simp only [combineStep, List.pairwise_cons]
    cases hm : extractMate eqExcept a rest with
    | some p =>
      constructor
      · intro h; cases h
      · rintro ⟨hall, -⟩
        have hnone := (extractMate_eq_none_iff eqExcept a rest).mpr hall
        rw [hm] at hnone
        cases hnone
    | none =>
      constructor
      · intro h
        cases hs : combineStep eqExcept rest with
        | some l'' => rw [hs] at h; cases h
        | none =>
          exact ⟨(extractMate_eq_none_iff eqExcept a rest).mp hm, ih.mp hs⟩
      · rintro ⟨-, hp⟩
        rw [ih.mpr hp]
        rfl

/-! ## The run collaborator and the stat object hierarchy -/

/-- Modelled from the spec: the `RunData` collaborator
(`temci.tester.rundata`, outside `src/`) "must expose a mapping from
property name to an ordered sequence of real observations, a stable
description string, and an equality relation usable to test 'same
underlying run'". -/
structure RunData where
  description : String
  props : List (String × List ℚ)
deriving DecidableEq

/-- `data.properties`: the run's property names. -/
def RunData.propNames (rd : RunData) : List String :=
  rd.props.map Prod.fst

/-- `data[property]`: the observation sequence of a property (a missing
property raises a `KeyError` in Python; determinised to `[]`, a path no
claim exercises). -/
def RunData.lookup (rd : RunData) (property : String) : List ℚ :=
  (((rd.props.find? (fun p => p.1 == property)).map Prod.snd).getD [])

/-- Modelled from the spec: the pluggable `Tester` collaborator
(`temci.tester.testers`, outside `src/`), identified here by name; its
test functions are never needed by the claims, only its equality. -/
structure Tester where
  name : String
deriving DecidableEq

/-- Modelled from the spec: the tester "resolved by a registry keyed by
name plus an uncertainty-range parameter, both sourced from process-wide
configuration" (stats.py lines 594-596 and 716-718 resolve the same
default when `tester` is `None`). -/
def defaultTester : Tester := ⟨"default"⟩

/-- `Single` (stats.py line 420): wrapper around one run data object.
`Single(data)` with a `Single` argument copies its `rundata`, so the
wrapper is determined by the run alone. -/
structure Single where
  rundata : RunData
deriving DecidableEq

/-- The keys of `Single.properties` (stats.py lines 431-434): one entry
per name in `data.properties`, in order, duplicates collapsed to their
first position as in a Python dict. -/
def Single.propKeys (s : Single) : List String :=
  s.rundata.propNames.eraseDups

/-- `SingleProperty` (stats.py line 461): one run data block restricted
to one measured property.  Built from a `RunData` (the only construction
`stats.py` itself uses), `data` is `rundata[property]`. -/
structure SingleProperty where
  parent : Single
  rundata : RunData
  data : List ℚ
  property : String
deriving DecidableEq

/-- `SingleProperty.__init__` (stats.py lines 466-476) on the
`RunData` branch. -/
def SingleProperty.ofRun (parent : Single) (rd : RunData) (property : String) :
    SingleProperty :=
  ⟨parent, rd, rd.lookup property, property⟩

/-- `np.mean`: arithmetic mean (exact, over the rationals). -/
def qmean (l : List ℚ) : ℚ := l.sum / l.length

/-- `np.var`: population variance, the mean of the squared deviations. -/
def qvariance (l : List ℚ) : ℚ := qmean (l.map (fun x => (x - qmean l) ^ 2))

def SingleProperty.mean (sp : SingleProperty) : ℚ := qmean sp.data

def SingleProperty.variance (sp : SingleProperty) : ℚ := qvariance sp.data

/-- `observations` (stats.py line 525): the number of data points. -/
def SingleProperty.observations (sp : SingleProperty) : ℕ := sp.data.length

/-- `std_dev` (stats.py line 499), `np.std`: the square root of the
population variance, idealised over the reals. -/
noncomputable def SingleProperty.stdDev (sp : SingleProperty) : ℝ :=
  Real.sqrt (sp.variance : ℝ)

/-- `std_dev_per_mean` (stats.py line 519). -/
noncomputable def SingleProperty.stdDevPerMean (sp : SingleProperty) : ℝ :=
  sp.stdDev / (sp.mean : ℝ)

/-- `SingleProperty.eq_except_property` (stats.py lines 531-532):
`isinstance(other, SingleProperty) and self.rundata == other.rundata`
(the cross-class `isinstance` test lives in `StatParent.eqExceptProperty`
below). -/
def SingleProperty.eqExceptProperty (a b : SingleProperty) : Bool :=
  a.rundata == b.rundata

/-- `TestedPair` (stats.py line 585): two runs compared via a tester. -/
structure TestedPair where
  first : Single
  second : Single
  tester : Tester
deriving DecidableEq

/-- `TestedPair.__init__` (stats.py lines 590-600): `tester or
<registry default>`. -/
def TestedPair.make (first second : Single) (tester : Option Tester) : TestedPair :=
  ⟨first, second, tester.getD defaultTester⟩

/-- `TestedPairProperty` (stats.py line 706). -/
structure TestedPairProperty where
  parent : TestedPair
  first : SingleProperty
  second : SingleProperty
  tester : Tester
  property : String
deriving DecidableEq

/-- `TestedPairProperty.__init__` (stats.py lines 711-719).  Note line
715: the source constructs the second wrapped object as
`SingleProperty(first, second.rundata, property)` — the *parent* passed
is `first` for both children; only the run data differs. -/
def TestedPairProperty.make (parent : TestedPair) (first second : Single)
    (property : String) (tester : Option Tester) : TestedPairProperty :=
  { parent := parent
    first := SingleProperty.ofRun first first.rundata property
    second := SingleProperty.ofRun first second.rundata property
    tester := tester.getD defaultTester
    property := property }

/-- The key set of `TestedPair.properties` (stats.py line 599):
`set(first).intersection(second)`, determinised to the first run's key
order. -/
def TestedPair.sharedProps (p : TestedPair) : List String :=
  p.first.propKeys.filter (fun k => p.second.propKeys.contains k)

/-- `self.properties[prop]` of a `TestedPair` (stats.py line 600).  The
source passes the raw constructor argument `tester` down; since both
constructors resolve `None` to the same registry default, this equals
passing `self.tester`. -/
def TestedPair.prop (p : TestedPair) (property : String) : TestedPairProperty :=
  TestedPairProperty.make p p.first p.second property (some p.tester)

/-- `TestedPair.swap` (stats.py lines 621-626):
`TestedPair(self.second, self.first, self.tester)`. -/
def TestedPair.swap (p : TestedPair) : TestedPair :=
  TestedPair.make p.second p.first (some p.tester)

/-- `TestedPairProperty.mean_diff` (stats.py lines 733-734). -/
def TestedPairProperty.meanDiff (tpp : TestedPairProperty) : ℚ :=
  tpp.first.mean - tpp.second.mean

/-- `max_std_dev` (stats.py lines 780-781): despite its name the source
takes the maximum of the two *means*. -/
def TestedPairProperty.maxStdDev (tpp : TestedPairProperty) : ℚ :=
  max tpp.first.mean tpp.second.mean

/-- `mean_diff_per_dev` (stats.py lines 755-759). -/
def TestedPairProperty.meanDiffPerDev (tpp : TestedPairProperty) : ℚ :=
  tpp.meanDiff / tpp.maxStdDev

/-- `TestedPairProperty.eq_except_property` (stats.py lines 800-802),
verbatim: `isinstance(other, type(self)) and
self.first.eq_except_property(self.second) and self.tester ==
other.tester` — the source compares `self.first` against `self.second`,
not against `other`. -/
def TestedPairProperty.eqExceptProperty (self other : TestedPairProperty) : Bool :=
  self.first.eqExceptProperty self.second && self.tester == other.tester

/-- The parent of a diagnostic message: `stats.py` creates messages with
a `SingleProperty` subject (lines 478-484) or a `TestedPairProperty`
subject (lines 727-730). -/
inductive StatParent where
  | singleProp (sp : SingleProperty)
  | pairProp (tpp : TestedPairProperty)
deriving DecidableEq

/-- Dynamic dispatch of `parent.eq_except_property(other)`: within a
class the class's own method applies; across classes the `isinstance`
guard at its head fails. -/
def StatParent.eqExceptProperty : StatParent → StatParent → Bool
  | .singleProp a, .singleProp b => a.eqExceptProperty b
  | .pairProp a, .pairProp b => a.eqExceptProperty b
  | _, _ => false

/-- A diagnostic message of the program: subject from the stat object
hierarchy, numeric values idealised as reals (Python floats). -/
abbrev ProgMessage := StatMessage StatParent ℝ

/-- The class attribute `border_value` of each concrete message class
(stats.py lines 151, 162, 169, 180, 692, 703). -/
def borderValue : MessageKind → ℝ
  | .stdDeviationToHighWarning => 0.01
  | .stdDeviationToHighError => 0.05
  | .notEnoughObservationsWarning => 30
  | .notEnoughObservationsError => 15
  | .effectToSmallWarning => 2
  | .effectToSmallError => 1

/-- `check_value` of each concrete message class: acceptable iff
`value <= border_value` for the spread kinds (stats.py lines 154-156) and
`value >= border_value` for the observation-count kinds (lines 172-174)
and the effect-size kinds (lines 695-697). -/
def checkValue (kind : MessageKind) (value : ℝ) : Prop :=
  match kind with
  | .stdDeviationToHighWarning => value ≤ borderValue kind
  | .stdDeviationToHighError => value ≤ borderValue kind
  | .notEnoughObservationsWarning => value ≥ borderValue kind
  | .notEnoughObservationsError => value ≥ borderValue kind
  | .effectToSmallWarning => value ≥ borderValue kind
  | .effectToSmallError => value ≥ borderValue kind

open Classical in
/-- `create_if_valid` (stats.py lines 110-120): `None` when the check
accepts the value, otherwise a message for the (singleton) property — all
call sites in stats.py pass `properties=self.property`, a single name. -/
noncomputable def createIfValid (kind : MessageKind) (parent : StatParent)
    (value : ℝ) (property : String) : Option ProgMessage :=
  if checkValue kind value then none
  else mkStatMessage kind parent [property] [value]

/-- `SingleProperty._get_stat_messages` (stats.py lines 478-485). -/
noncomputable def SingleProperty.rawStatMessages (sp : SingleProperty) :
    List (Option ProgMessage) :=
  [ createIfValid .stdDeviationToHighWarning (.singleProp sp) sp.stdDevPerMean sp.property
  , createIfValid .stdDeviationToHighError (.singleProp sp) sp.stdDevPerMean sp.property
  , createIfValid .notEnoughObservationsWarning (.singleProp sp) (sp.observations : ℝ) sp.property
  , createIfValid .notEnoughObservationsError (.singleProp sp) (sp.observations : ℝ) sp.property ]

/-- `BaseStatObject.get_stat_messages` (stats.py lines 193-196) for a
`SingleProperty`: the combined `_get_stat_messages` (the cache only
memoises this value; its identity behaviour is modelled separately
below). -/
noncomputable def SingleProperty.getStatMessages (sp : SingleProperty) :
    List ProgMessage :=
  StatMessage.combine StatParent.eqExceptProperty sp.rawStatMessages

/-- `Single._get_stat_messages` (stats.py lines 436-442): the messages of
all child `SingleProperty` objects, in dict order. -/
noncomputable def Single.rawStatMessages (s : Single) : List ProgMessage :=
  s.propKeys.flatMap (fun p => (SingleProperty.ofRun s s.rundata p).getStatMessages)

/-- `BaseStatObject.get_stat_messages` for a `Single`. -/
noncomputable def Single.getStatMessages (s : Single) : List ProgMessage :=
  StatMessage.combine StatParent.eqExceptProperty (s.rawStatMessages.map some)

/-- `TestedPairProperty._get_stat_messages` (stats.py lines 721-731):
both children's combined messages followed by the two effect-size
checks. -/
noncomputable def TestedPairProperty.rawStatMessages (tpp : TestedPairProperty) :
    List (Option ProgMessage) :=
  (tpp.first.getStatMessages ++ tpp.second.getStatMessages).map some ++
  [ createIfValid .effectToSmallWarning (.pairProp tpp) (tpp.meanDiffPerDev : ℝ) tpp.property
  , createIfValid .effectToSmallError (.pairProp tpp) (tpp.meanDiffPerDev : ℝ) tpp.property ]

/-- `BaseStatObject.get_stat_messages` for a `TestedPairProperty`. -/
noncomputable def TestedPairProperty.getStatMessages (tpp : TestedPairProperty) :
    List ProgMessage :=
  StatMessage.combine StatParent.eqExceptProperty tpp.rawStatMessages

/-- `TestedPair._get_stat_messages` (stats.py lines 602-608): the
messages of all shared-property comparisons. -/
noncomputable def TestedPair.rawStatMessages (p : TestedPair) : List ProgMessage :=
  p.sharedProps.flatMap (fun property => (p.prop property).getStatMessages)

/-- `BaseStatObject.get_stat_messages` for a `TestedPair`. -/
noncomputable def TestedPair.getStatMessages (p : TestedPair) : List ProgMessage :=
  StatMessage.combine StatParent.eqExceptProperty (p.rawStatMessages.map some)

/-- `TestedPairsAndSingles` (stats.py line 638). -/
structure TestedPairsAndSingles where
  singles : List Single
  pairs : List TestedPair

/-- A junk run used only for the (never reached) out-of-bounds branch of
list indexing. -/
def emptySingle : Single := ⟨⟨"", []⟩⟩

/-- `TestedPairsAndSingles.get_pair` (stats.py lines 655-658) modulo the
bounds assertion: `TestedPair(self.singles[first_id],
self.singles[second_id])` with no tester. -/
def TestedPairsAndSingles.getPair (singles : List Single) (i j : ℕ) : TestedPair :=
  TestedPair.make (singles.getD i emptySingle) (singles.getD j emptySingle) none

/-- `TestedPairsAndSingles.__init__` (stats.py lines 643-650): wrap every
input run in a `Single`; `pairs or []`; when no pair list is supplied and
there is more than one single, build every pair `(i, j)` with
`i < j` in ascending order. -/
def TestedPairsAndSingles.make (runs : List RunData)
    (pairs : Option (List TestedPair)) : TestedPairsAndSingles :=
  let ss := runs.map Single.mk
  { singles := ss
    pairs :=
      match pairs with
      | some ps => ps
      | none =>
        if ss.length > 1 then
          (List.range ss.length).flatMap (fun i =>
            ((List.range ss.length).filter (fun j => i < j)).map (fun j =>
              TestedPairsAndSingles.getPair ss i j))
        else [] }

/-- `TestedPairsAndSingles.properties` (stats.py lines 660-669): a bare
`return` — that is, `None` — when there are no singles (despite the
`t.List[str]` annotation); otherwise the sorted intersection of all
singles' property-key sets. -/
def TestedPairsAndSingles.properties (c : TestedPairsAndSingles) :
    Option (List String) :=
  match c.singles with
  | [] => none
  | s :: rest =>
    some (sortStrings
      (rest.foldl (fun props single => props.filter (fun k => single.propKeys.contains k))
        s.propKeys))

/-- `TestedPairsAndSingles.get_stat_messages` (stats.py lines 671-679):
overrides the base accessor; it extends over `self.pairs` only — the
singles' messages are never collected — and applies no `combine` of its
own. -/
noncomputable def TestedPairsAndSingles.getStatMessages
    (c : TestedPairsAndSingles) : List ProgMessage :=
  c.pairs.flatMap TestedPair.getStatMessages

/-- `Single.get_data_frame` (stats.py lines 444-449): one column per
property holding `self.properties[prop].data`, column order
`sorted(self.properties.keys())`.  A data frame is modelled as its
ordered list of (column name, series) pairs. -/
def Single.getDataFrame (s : Single) : List (String × List ℚ) :=
  (sortStrings s.propKeys).map (fun p => (p, (SingleProperty.ofRun s s.rundata p).data))

/-- `TestedPairProperty.get_data_frame` (stats.py lines 783-795):
column names from `str(self.first)` / `str(self.second)` (the run
descriptions, stats.py lines 576-577), with the property appended when
`show_property`.  Lines 791-792 build BOTH series from
`self.first.data`. -/
def TestedPairProperty.getDataFrame (tpp : TestedPairProperty)
    (showProperty : Bool) : List (String × List ℚ) :=
  let c0 := if showProperty then tpp.first.rundata.description ++ ": " ++ tpp.property
            else tpp.first.rundata.description
  let c1 := if showProperty then tpp.second.rundata.description ++ ": " ++ tpp.property
            else tpp.second.rundata.description
  [(c0, tpp.first.data), (c1, tpp.first.data)]

/-! ## The lazy message cache of `BaseStatObject`

Python list identity is modelled by an allocation id: every list object
the accessor creates carries a fresh id, so two calls return "the
identical list object" exactly when they return the same id. -/

/-- A Python list object: its identity and its contents. -/
structure MsgList (P V : Type) where
  allocId : ℕ
  msgs : List (StatMessage P V)

/-- The mutable state of one stat object: the `_stat_messages` field and
the allocator for fresh list identities. -/
structure CachedStatObject (P V : Type) where
  statMessages : MsgList P V
  nextAlloc : ℕ

/-- `BaseStatObject.__init__` (stats.py lines 190-191):
`self._stat_messages = []`, a fresh empty list (id 0). -/
def CachedStatObject.init : CachedStatObject P V := ⟨⟨0, []⟩, 1⟩

/-- `BaseStatObject.get_stat_messages` (stats.py lines 193-196):
`if not self._stat_messages:` — the *truthiness* of the field, i.e. its
emptiness — recompute `StatMessage.combine(*self._get_stat_messages())`
(which builds a fresh list object, hence a fresh id) and store it; then
return the field.  `computed` is the combined message contents of the
object's `_get_stat_messages`. -/
def CachedStatObject.getStatMessages (computed : List (StatMessage P V))
    (s : CachedStatObject P V) : MsgList P V × CachedStatObject P V :=
  if s.statMessages.msgs.isEmpty then
    let fresh : MsgList P V := ⟨s.nextAlloc, computed⟩
    (fresh, ⟨fresh, s.nextAlloc + 1⟩)
  else
    (s.statMessages, s)

/-! ## Claims -/

/-- C2: for every list of optional diagnostic messages, applying `combine`
to the result of `combine` yields the same messages as applying `combine`
once, and the output of `combine` contains no two messages of the same
kind whose subjects are equal-except-property (it is a fixed point of
`combine`). -/
theorem combine_idempotent (P V : Type) (eqExcept : P → P → Bool)
    (msgs : List (Option (StatMessage P V))) :
    StatMessage.combine eqExcept ((StatMessage.combine eqExcept msgs).map some)
        = StatMessage.combine eqExcept msgs ∧
    List.Pairwise
      (fun a b => mergeable eqExcept a b = false ∧ mergeable eqExcept b a = false)
      (StatMessage.combine eqExcept msgs) := by
  have hfix := combineStep_combineLoop eqExcept (msgs.filterMap id)
  constructor
  · unfold StatMessage.combine
    have h1 : (List.map some (combineLoop eqExcept (msgs.filterMap id))).filterMap id
        = combineLoop eqExcept (msgs.filterMap id) := by
      simp
    rw [h1]
    exact combineLoop_of_none _ _ hfix
  · exact (combineStep_eq_none_iff _ _).mp hfix

/-- C3: the combine algorithm terminates, because each merge step
strictly reduces the number of remaining messages by one; consequently
the result never has more messages than the non-`None` input. -/
theorem combine_terminates (P V : Type) (eqExcept : P → P → Bool) :
    (∀ (l l' : List (StatMessage P V)),
        combineStep eqExcept l = some l' → l'.length + 1 = l.length) ∧
    (∀ msgs : List (Option (StatMessage P V)),
        (StatMessage.combine eqExcept msgs).length ≤ (msgs.filterMap id).length) := by
  constructor
  · exact combineStep_length eqExcept
  · intro msgs
    exact combineLoop_length_le eqExcept (msgs.filterMap id)

def c3Msg1 : StatMessage Unit ℚ :=
  ⟨.notEnoughObservationsWarning, (), ["x"], [3]⟩

def c3Msg2 : StatMessage Unit ℚ :=
  ⟨.notEnoughObservationsWarning, (), ["y"], [4]⟩

theorem combine_terminates_witness :
    combineStep (fun _ _ : Unit => true) [c3Msg1, c3Msg2]
        = some [c3Msg1.mergeWith c3Msg2] ∧
    ([c3Msg1.mergeWith c3Msg2]).length + 1 = [c3Msg1, c3Msg2].length :=
  ⟨by decide, (combine_terminates Unit ℚ (fun _ _ => true)).1 _ _ (by decide)⟩

/-- C10: every diagnostic message produced by the constructor
(`mkStatMessage`) or by the merge operator (`StatMessage.add`) has a
non-empty, sorted property list and a value list of exactly the same
length as the property list. -/
theorem statMessage_invariant (P V : Type) (eqExcept : P → P → Bool)
    (k : MessageKind) (p : P) (props : List String) (vals : List V)
    (a b : StatMessage P V) :
    (∀ m, mkStatMessage k p props vals = some m →
      m.properties ≠ [] ∧ m.properties.Sorted (· ≤ ·) ∧
        m.values.length = m.properties.length) ∧
    (∀ m, StatMessage.add eqExcept a b = some m →
      m.properties ≠ [] ∧ m.properties.Sorted (· ≤ ·) ∧
        m.values.length = m.properties.length) := by
  have key : ∀ (k' : MessageKind) (p' : P) (props' : List String) (vals' : List V) m,
      mkStatMessage k' p' props' vals' = some m →
      m.properties ≠ [] ∧ m.properties.Sorted (· ≤ ·) ∧
        m.values.length = m.properties.length := by
    intro k' p' props' vals' m hm
    unfold mkStatMessage at hm
    by_cases hc : props'.length > 0 ∧ vals'.length = props'.length
    · rw [if_pos hc] at hm
      injection hm with hm'
      subst hm'
      refine ⟨?_, ?_, ?_⟩
      · have hlen : (sortStrings props').length = props'.length := length_sortStrings props'
        show sortStrings props' ≠ []
        intro hnil
        rw [hnil] at hlen
        simp only [List.length_nil] at hlen
        omega
      · exact sorted_sortStrings props'
      · show vals'.length = (sortStrings props').length
        rw [length_sortStrings]
        exact hc.2
    · rw [if_neg hc] at hm
      cases hm
  constructor
  · exact key k p props vals
  · intro m hm
    unfold StatMessage.add at hm
    by_cases hc : (b.kind.isSubclassOf a.kind && eqExcept a.parent b.parent) = true
    · rw [if_pos hc] at hm
      exact key _ _ _ _ m hm
    · rw [if_neg hc] at hm
      cases hm

def c10MsgY : StatMessage Unit ℚ :=
  ⟨.effectToSmallWarning, (), ["y"], [1]⟩

def c10MsgX : StatMessage Unit ℚ :=
  ⟨.effectToSmallWarning, (), ["x"], [2]⟩

theorem createIfValid_none (kind : MessageKind) (parent : StatParent)
    (value : ℝ) (property : String) (h : checkValue kind value) :
    createIfValid kind parent value property = none := by
  unfold createIfValid
  rw [if_pos h]

theorem createIfValid_some (kind : MessageKind) (parent : StatParent)
    (value : ℝ) (property : String) (h : ¬ checkValue kind value) :
    createIfValid kind parent value property
      = some ⟨kind, parent, [property], [value]⟩ := by
  unfold createIfValid
  rw [if_neg h]
  unfold mkStatMessage
  rw [if_pos ⟨Nat.one_pos, rfl⟩]
  rfl

theorem qmean_replicate (n : ℕ) (a : ℚ) (h : n ≠ 0) :
    qmean (List.replicate n a) = a := by
  unfold qmean
  rw [List.sum_replicate, List.length_replicate, nsmul_eq_mul, mul_comm,
    mul_div_assoc, div_self (Nat.cast_ne_zero.mpr h), mul_one]

def run10 : RunData := ⟨"r", [("time", List.replicate 10 5)]⟩

def run50 : RunData := ⟨"r", [("time", List.replicate 50 5)]⟩

def single10 : Single := ⟨run10⟩

def single50 : Single := ⟨run50⟩

def sp10 : SingleProperty := SingleProperty.ofRun single10 run10 "time"

def sp50 : SingleProperty := SingleProperty.ofRun single50 run50 "time"

noncomputable def c4Warn : ProgMessage :=
  ⟨.notEnoughObservationsWarning, .singleProp sp10, ["time"], [(10 : ℝ)]⟩

noncomputable def c4Err : ProgMessage :=
  ⟨.notEnoughObservationsError, .singleProp sp10, ["time"], [(10 : ℝ)]⟩

/-- C4 (against the claim): for the collection built from the one sample
with 10 observations of property `"time"`, the collection's diagnostic
list is EMPTY — `TestedPairsAndSingles.get_stat_messages` (stats.py lines
671-679) collects messages from `self.pairs` only, and a single-sample
collection has no pairs — even though the sample's own diagnostics do
contain both the advisory and the error for insufficient observations
(second conjunct).  With 50 observations everything is empty, as the
claim says, but vacuously so at the collection level. -/
theorem collection_ignores_single_messages :
    (TestedPairsAndSingles.make [run10] none).getStatMessages = [] ∧
    single10.getStatMessages = [c4Warn, c4Err] ∧
    (TestedPairsAndSingles.make [run50] none).getStatMessages = [] ∧
    single50.getStatMessages = [] := by
  have hvar10 : sp10.variance = 0 := by
    show qvariance (List.replicate 10 5) = 0
    unfold qvariance
    rw [List.map_replicate, qmean_replicate 10 5 (by norm_num)]
    have h2 : ((5 : ℚ) - 5) ^ 2 = 0 := by norm_num
    rw [h2, qmean_replicate 10 0 (by norm_num)]
  have hsdpm10 : sp10.stdDevPerMean = 0 := by
    unfold SingleProperty.stdDevPerMean SingleProperty.stdDev
    rw [hvar10]
    simp
  have hchkSdW : checkValue .stdDeviationToHighWarning sp10.stdDevPerMean := by
    rw [hsdpm10]
    norm_num [checkValue, borderValue]
  have hchkSdE : checkValue .stdDeviationToHighError sp10.stdDevPerMean := by
    rw [hsdpm10]
    norm_num [checkValue, borderValue]
  have hobs10 : ((sp10.observations : ℕ) : ℝ) = (10 : ℝ) := by
    have h : sp10.observations = 10 := rfl
    rw [h]
    norm_num
  have hchkNW : ¬ checkValue .notEnoughObservationsWarning (sp10.observations : ℝ) := by
    rw [hobs10]
    norm_num [checkValue, borderValue]
  have hchkNE : ¬ checkValue .notEnoughObservationsError (sp10.observations : ℝ) := by
    rw [hobs10]
    norm_num [checkValue, borderValue]
  have hraw10 : sp10.rawStatMessages = [none, none, some c4Warn, some c4Err] := by
    unfold SingleProperty.rawStatMessages
    rw [createIfValid_none _ _ _ _ hchkSdW, createIfValid_none _ _ _ _ hchkSdE,
        createIfValid_some _ _ _ _ hchkNW, createIfValid_some _ _ _ _ hchkNE, hobs10]
    rfl
  have hstep10 : combineStep StatParent.eqExceptProperty [c4Warn, c4Err] = none := rfl
  have hget10 : sp10.getStatMessages = [c4Warn, c4Err] := by
    unfold SingleProperty.getStatMessages
    rw [hraw10]
    unfold StatMessage.combine
    have hfm : ([none, none, some c4Warn, some c4Err] : List (Option ProgMessage)).filterMap id
        = [c4Warn, c4Err] := rfl
    rw [hfm]
    exact combineLoop_of_none _ _ hstep10
  have hsingle10 : single10.getStatMessages = [c4Warn, c4Err] := by
    unfold Single.getStatMessages Single.rawStatMessages
    have hkeys : single10.propKeys = ["time"] := rfl
    rw [hkeys]
    simp only [List.flatMap_cons, List.flatMap_nil, List.append_nil]
    have hofr : SingleProperty.ofRun single10 single10.rundata "time" = sp10 := rfl
    rw [hofr, hget10]
    unfold StatMessage.combine
    have hfm2 : (([c4Warn, c4Err]).map some).filterMap id = [c4Warn, c4Err] := rfl
    rw [hfm2]
    exact combineLoop_of_none _ _ hstep10
  have hcoll10 : (TestedPairsAndSingles.make [run10] none).getStatMessages = [] := by
    unfold TestedPairsAndSingles.getStatMessages
    have hpairs : (TestedPairsAndSingles.make [run10] none).pairs = [] := rfl
    rw [hpairs]
    rfl
  have hvar50 : sp50.variance = 0 := by
    show qvariance (List.replicate 50 5) = 0
    unfold qvariance
    rw [List.map_replicate, qmean_replicate 50 5 (by norm_num)]
    have h2 : ((5 : ℚ) - 5) ^ 2 = 0 := by norm_num
    rw [h2, qmean_replicate 50 0 (by norm_num)]
  have hsdpm50 : sp50.stdDevPerMean = 0 := by
    unfold SingleProperty.stdDevPerMean SingleProperty.stdDev
    rw [hvar50]
    simp
  have hchkSdW50 : checkValue .stdDeviationToHighWarning sp50.stdDevPerMean := by
    rw [hsdpm50]
    norm_num [checkValue, borderValue]
  have hchkSdE50 : checkValue .stdDeviationToHighError sp50.stdDevPerMean := by
    rw [hsdpm50]
    norm_num [checkValue, borderValue]
  have hobs50 : ((sp50.observations : ℕ) : ℝ) = (50 : ℝ) := by
    have h : sp50.observations = 50 := rfl
    rw [h]
    norm_num
  have hchkNW50 : checkValue .notEnoughObservationsWarning (sp50.observations : ℝ) := by
    rw [hobs50]
    norm_num [checkValue, borderValue]
  have hchkNE50 : checkValue .notEnoughObservationsError (sp50.observations : ℝ) := by
    rw [hobs50]
    norm_num [checkValue, borderValue]
  have hraw50 : sp50.rawStatMessages = [none, none, none, none] := by
    unfold SingleProperty.rawStatMessages
    rw [createIfValid_none _ _ _ _ hchkSdW50, createIfValid_none _ _ _ _ hchkSdE50,
        createIfValid_none _ _ _ _ hchkNW50, createIfValid_none _ _ _ _ hchkNE50]
  have hget50 : sp50.getStatMessages = [] := by
    unfold SingleProperty.getStatMessages
    rw [hraw50]
    unfold StatMessage.combine
    have hfm : ([none, none, none, none] : List (Option ProgMessage)).filterMap id
        = [] := rfl
    rw [hfm]
    exact combineLoop_of_none _ _ rfl
  have hsingle50 : single50.getStatMessages = [] := by
    unfold Single.getStatMessages Single.rawStatMessages
    have hkeys : single50.propKeys = ["time"] := rfl
    rw [hkeys]
    simp only [List.flatMap_cons, List.flatMap_nil, List.append_nil]
    have hofr : SingleProperty.ofRun single50 single50.rundata "time" = sp50 := rfl
    rw [hofr, hget50]
    unfold StatMessage.combine
    have hfm3 : ((List.map some ([] : List ProgMessage)).filterMap id) = [] := rfl
    rw [hfm3]
    exact combineLoop_of_none _ _ rfl
  have hcoll50 : (TestedPairsAndSingles.make [run50] none).getStatMessages = [] := by
    unfold TestedPairsAndSingles.getStatMessages
    have hpairs : (TestedPairsAndSingles.make [run50] none).pairs = [] := rfl
    rw [hpairs]
    rfl
  exact ⟨hcoll10, hsingle10, hcoll50, hsingle50⟩

def c1Run : RunData := ⟨"R", [("a", [1]), ("b", [2])]⟩

/-- The messages `StdDeviationToHighWarning` produces for properties
`"b"` and `"a"` of the same run (exactly the constructor's output shape:
singleton property, parallel singleton value). -/
noncomputable def c1MsgB : ProgMessage :=
  ⟨.stdDeviationToHighWarning,
    .singleProp (SingleProperty.ofRun ⟨c1Run⟩ c1Run "b"), ["b"], [(1 : ℝ)]⟩

noncomputable def c1MsgA : ProgMessage :=
  ⟨.stdDeviationToHighWarning,
    .singleProp (SingleProperty.ofRun ⟨c1Run⟩ c1Run "a"), ["a"], [(2 : ℝ)]⟩

/-- C1 (against the claim): merging the message (properties `["b"]`,
values `[1]`) with the message (properties `["a"]`, values `[2]`) of the
identical kind and equal-except-property subjects yields the sorted
property list `["a", "b"]` but the *unsorted* value concatenation
`[1, 2]`: the merged message pairs `"a"` with `1` although `"a"` was
paired with `2` in the inputs — the constructor sorts only the property
list (stats.py line 64) and leaves the values in concatenation order
(line 65), so the pairing is NOT preserved through the sort. -/
theorem add_breaks_value_pairing :
    (StatMessage.add StatParent.eqExceptProperty c1MsgB c1MsgA).map
        (fun m => m.properties.zip m.values)
      = some [("a", (1 : ℝ)), ("b", (2 : ℝ))] ∧
    c1MsgB.properties.zip c1MsgB.values = [("b", (1 : ℝ))] ∧
    c1MsgA.properties.zip c1MsgA.values = [("a", (2 : ℝ))] := by
  refine ⟨?_, rfl, rfl⟩
  rfl

def c5RunAB : RunData := ⟨"r1", [("a", [1]), ("b", [2])]⟩

def c5RunBC : RunData := ⟨"r2", [("b", [3]), ("c", [4])]⟩

def c5RunB : RunData := ⟨"r3", [("b", [5])]⟩

/-- C5 (against the claim): for the samples with property sets
`{a, b}`, `{b, c}`, `{b}` the shared-property query returns the sorted
intersection `["b"]`, but for a collection with no samples it returns
`None` (the bare `return` at stats.py line 665), not an empty list. -/
theorem collection_properties_eval :
    (TestedPairsAndSingles.make [] none).properties = none ∧
    (TestedPairsAndSingles.make [c5RunAB, c5RunBC, c5RunB] none).properties
      = some ["b"] := by
  constructor
  · rfl
  · decide

/-- C6: the swapped pair uses the same tester, and its per-property mean
difference is the negation of the original pair's. -/
theorem swap_tester_and_mean_diff (p : TestedPair) (property : String)
    (h : property ∈ p.sharedProps) :
    p.swap.tester = p.tester ∧
    (p.swap.prop property).meanDiff = -((p.prop property).meanDiff) := by
  constructor
  · rfl
  · simp only [TestedPair.swap, TestedPair.make, TestedPair.prop,
      TestedPairProperty.make, TestedPairProperty.meanDiff,
      SingleProperty.ofRun, SingleProperty.mean, Option.getD_some]
    ring

def c6Pair : TestedPair :=
  TestedPair.make ⟨⟨"X", [("time", [1, 2])]⟩⟩ ⟨⟨"Y", [("time", [4, 6])]⟩⟩ none

theorem swap_tester_and_mean_diff_witness :
    "time" ∈ c6Pair.sharedProps ∧
    (c6Pair.swap.tester = c6Pair.tester ∧
      (c6Pair.swap.prop "time").meanDiff = -((c6Pair.prop "time").meanDiff)) :=
  ⟨by decide, swap_tester_and_mean_diff c6Pair "time" (by decide)⟩

def c7RunA : RunData := ⟨"A", [("p", [1]), ("q", [2])]⟩

def c7RunB : RunData := ⟨"B", [("p", [3]), ("q", [4])]⟩

def c7PairAB : TestedPair := TestedPair.make ⟨c7RunA⟩ ⟨c7RunB⟩ none

def c7PairAA : TestedPair := TestedPair.make ⟨c7RunA⟩ ⟨c7RunA⟩ none

def c7PairBB : TestedPair := TestedPair.make ⟨c7RunB⟩ ⟨c7RunB⟩ none

/-- C7 (against the claim): two pairwise property comparisons over the
same two (distinct) runs `A`, `B` but different properties `p`, `q` give
`eq_except_property = False` (the claim says `True`), because stats.py
line 801 compares `self.first` with `self.second` — the runs of `self`
itself — instead of with `other`; and two comparisons over the
*different* run pairs `(A, A)` and `(B, B)` give `True` (the claim says
`False`). -/
theorem eq_except_property_pair_bug :
    (c7PairAB.prop "p").eqExceptProperty (c7PairAB.prop "q") = false ∧
    (c7PairAA.prop "p").eqExceptProperty (c7PairBB.prop "p") = true := by
  decide

def c8RunA : RunData := ⟨"A", [("time", [1, 2])]⟩

def c8RunB : RunData := ⟨"B", [("time", [3, 4])]⟩

def c8Pair : TestedPair := TestedPair.make ⟨c8RunA⟩ ⟨c8RunB⟩ none

/-- C8 (against the claim): the tabular projection of a single-sample
statistics object is faithful (first conjunct), but for a pairwise
property comparison BOTH columns hold the first sample's observation
sequence `[1, 2]` (stats.py lines 791-792 build both series from
`self.first.data`), although the second sample's observation sequence is
`[3, 4]` (third conjunct). -/
theorem pair_data_frame_bug :
    (Single.mk c8RunA).getDataFrame = [("time", [1, 2])] ∧
    (c8Pair.prop "time").getDataFrame true
      = [("A: time", [1, 2]), ("B: time", [1, 2])] ∧
    (c8Pair.prop "time").second.data = [3, 4] := by
  decide

/-- C9 (against the claim): when the combined message list is empty, the
truthiness test `if not self._stat_messages` (stats.py line 194) fails on
every call, so the list is recomputed each time and the two calls return
equal but NOT identical list objects (different allocation ids). -/
theorem cache_not_identical_when_empty :
    (let s0 : CachedStatObject Unit Unit := CachedStatObject.init
     let r1 := CachedStatObject.getStatMessages [] s0
     let r2 := CachedStatObject.getStatMessages [] r1.2
     r1.1.msgs = r2.1.msgs ∧ r1.1.allocId ≠ r2.1.allocId) := by
  decide

/-- C9 amended: when the computed combined list is non-empty, the first
access stores it and every later access returns the identical cached
list object with the state unchanged. -/
theorem cache_identical_when_nonempty (P V : Type)
    (computed next : List (StatMessage P V)) (s : CachedStatObject P V)
    (h : computed ≠ []) :
    CachedStatObject.getStatMessages next
        (CachedStatObject.getStatMessages computed s).2
      = CachedStatObject.getStatMessages computed s := by
  unfold CachedStatObject.getStatMessages
  by_cases h0 : s.statMessages.msgs.isEmpty = true
  · simp only [h0, if_true]
    have : (⟨s.nextAlloc, computed⟩ : MsgList P V).msgs.isEmpty = false := by
      cases computed with
      | nil => exact absurd rfl h
      | cons x xs => rfl
    simp [this]
  · simp only [h0]
    simp [Bool.not_eq_true] at h0
    simp [h0]

def c9Msg : StatMessage Unit Unit :=
  ⟨.notEnoughObservationsWarning, (), ["x"], [()]⟩

theorem cache_identical_when_nonempty_witness :
    ([c9Msg] ≠ []) ∧
    CachedStatObject.getStatMessages []
        (CachedStatObject.getStatMessages [c9Msg]
          (CachedStatObject.init : CachedStatObject Unit Unit)).2
      = CachedStatObject.getStatMessages [c9Msg]
          (CachedStatObject.init : CachedStatObject Unit Unit) :=
  ⟨by decide,
    cache_identical_when_nonempty Unit Unit [c9Msg] [] CachedStatObject.init (by decide)⟩

theorem statMessage_invariant_witness :
    (∀ m, mkStatMessage .effectToSmallWarning () ["b", "a"] [(1 : ℚ), 2] = some m →
      m.properties ≠ [] ∧ m.properties.Sorted (· ≤ ·) ∧
        m.values.length = m.properties.length) ∧
    (∀ m, StatMessage.add (fun _ _ : Unit => true) c10MsgY c10MsgX = some m →
      m.properties ≠ [] ∧ m.properties.Sorted (· ≤ ·) ∧
        m.values.length = m.properties.length) :=
  statMessage_invariant Unit ℚ (fun _ _ => true) .effectToSmallWarning ()
    ["b", "a"] [(1 : ℚ), 2] c10MsgY c10MsgX

end Temci
